import Mathlib

/-! Release migration resource (helm/resource_migration.go)

A shallow embedding of the four operations of the migration resource
(`resourceMigrationCreate`, `resourceMigrationRead`, `resourceMigrationUpdate`,
`resourceMigrationDelete`) together with the properties of its status record.

Conventions of the embedding:

* a Go `error` is a `GoError` (its `Error()` text and whether it reports that the
  release does not exist); a nil error is `none`;
* `*schema.ResourceData` is the record `ResourceData`; `d.Get` is a field access and
  `d.Set` a field update (every key set by the code is a boolean key of the schema
  and is given a boolean, so `d.Set` cannot fail there);
* the collaborators that are not part of this file (`Meta`, the two release
  lookups and `helmcmd.Convert`) are parameters: `Meta` and `Stores` give the
  outcome of each accessor and lookup, and the invoker is a function on `Stores`;
* every operation returns its diagnostics, the record, the stores and the list of
  collaborator calls it made, in order.
-/

namespace helm

/-! ## Errors and diagnostics -/

/-- A Go error value: the text returned by `Error()`, and whether the error says that
the release does not exist (as opposed to any other failure of the lookup). -/
structure GoError where
  text : String
  noSuchRelease : Bool
deriving DecidableEq

/-- The `errors.New` constructor: a fresh error carrying only a message. -/
def errors.New (message : String) : GoError :=
  { text := message, noSuchRelease := false }

/-- Severity of a diagnostic (`diag.Error`, `diag.Warning`). -/
inductive diag.Severity where
  | Error
  | Warning
deriving DecidableEq

/-- One diagnostic of the SDK. -/
structure diag.Diagnostic where
  Severity : diag.Severity
  Summary : String
deriving DecidableEq

/-- A list of diagnostics; both Go `nil` and `diag.Diagnostics{}` are the empty list. -/
abbrev diag.Diagnostics := List diag.Diagnostic

/-- The SDK function `diag.FromErr` on a non-nil error: one error diagnostic whose summary
is the text of the error. -/
def diag.FromErr (err : GoError) : diag.Diagnostics :=
  [{ Severity := diag.Severity.Error, Summary := err.text }]

/-- The SDK method `Diagnostics.HasError`. -/
def diag.HasError (ds : diag.Diagnostics) : Bool :=
  ds.any (fun x => decide (x.Severity = diag.Severity.Error))

/-! ## Data model -/

/-- The fields of the resource schema, and the resource identifier.
`namespace_` is the schema key `namespace`. -/
structure ResourceData where
  name : String
  namespace_ : String
  tiller_namespace : String
  delete_v2_releases : Bool
  ignore_already_migrated : Bool
  max_release_versions : Int
  v2exists : Bool
  v3exists : Bool
  migration_complete : Bool
  cleanup_complete : Bool
  Id : String
deriving DecidableEq

/-- The lookup options `v2.RetrieveOptions`, with the fields that the resource fills in. -/
structure RetrieveOptions where
  ReleaseName : String
  TillerNamespace : String
deriving DecidableEq

/-- The invoker options `helmcmd.ConvertOptions`, with the fields that the resource fills in. -/
structure ConvertOptions where
  DeleteRelease : Bool
  MaxReleaseVersions : Int
  ReleaseName : String
  TillerNamespace : String
  IgnoreAlreadyMigrated : Bool
deriving DecidableEq

/-- Legacy-store configuration handed out by `Meta.GetHelmV2ConfigurationInfo`. -/
structure KubeConfig where
  Context : String
  File : String
deriving DecidableEq

/-- Handle on the current-store configuration handed out by `Meta.GetHelmConfiguration`. -/
structure Configuration where
  key : String
deriving DecidableEq

/-- The provider object `Meta`: the outcome of its two configuration accessors. -/
structure Meta where
  GetHelmV2ConfigurationInfo : Except GoError KubeConfig
  GetHelmConfiguration : String → Except GoError Configuration

/-- The two release stores as the resource sees them: the error returned by
`v2.GetReleaseVersions` and by `getRelease` (`none` is a nil error: the release was found). -/
structure Stores where
  GetReleaseVersions : RetrieveOptions → KubeConfig → Option GoError
  getRelease : Configuration → String → Option GoError

/-- The migration invoker `helmcmd.Convert`: it returns an error or nil, and may change
the stores. -/
abbrev Invoker := ConvertOptions → KubeConfig → Stores → Option GoError × Stores

/-- A call to a collaborator. -/
inductive Call where
  | GetHelmV2ConfigurationInfo
  | GetHelmConfiguration (n : String)
  | GetReleaseVersions (o : RetrieveOptions)
  | getRelease (name : String)
  | Convert (o : ConvertOptions)
deriving DecidableEq

/-- What an operation leaves behind: its diagnostics, the record, the stores, and the
collaborator calls it made, oldest first. -/
structure Outcome where
  diags : diag.Diagnostics
  d : ResourceData
  stores : Stores
  calls : List Call

/-! ## The operations -/

/-- The function `resourceMigrationRead`. -/
def resourceMigrationRead (m : Meta) (d : ResourceData) (s : Stores) : Outcome :=
  let n := d.namespace_
  let name := d.name
  let retrieveOptions : RetrieveOptions :=
    { ReleaseName := name, TillerNamespace := d.tiller_namespace }
  match m.GetHelmV2ConfigurationInfo with
  | .error err =>
    { diags := diag.FromErr err, d := d, stores := s,
      calls := [Call.GetHelmV2ConfigurationInfo] }
  | .ok kubeConfig =>
    match m.GetHelmConfiguration n with
    | .error err =>
      { diags := diag.FromErr err, d := d, stores := s,
        calls := [Call.GetHelmV2ConfigurationInfo, Call.GetHelmConfiguration n] }
    | .ok helm3Config =>
      let calls := [Call.GetHelmV2ConfigurationInfo, Call.GetHelmConfiguration n,
        Call.GetReleaseVersions retrieveOptions, Call.getRelease name]
      let v2FindErr := s.GetReleaseVersions retrieveOptions kubeConfig
      let v3FindErr := s.getRelease helm3Config name
      let v2Found := v2FindErr.isNone
      let d1 := if v2FindErr.isNone then { d with v2exists := true } else d
      let v3Found := v3FindErr.isNone
      let d2 := if v3FindErr.isNone then { d1 with v3exists := true } else d1
      if !v2Found && !v3Found then
        { diags := diag.FromErr (errors.New "couldn't find either release."),
          d := d2, stores := s, calls := calls }
      else
        let id := n ++ "/" ++ name
        let d3 := if v2Found && !v3Found then { d2 with v2exists := true } else d2
        let d4 :=
          if !v2Found && v3Found then { d3 with v2exists := false, v3exists := true } else d3
        { diags := [], d := { d4 with Id := id }, stores := s, calls := calls }

/-- The function `resourceMigrationCreate`; `Convert` is `helmcmd.Convert`. -/
def resourceMigrationCreate (Convert : Invoker) (m : Meta) (d : ResourceData) (s : Stores) :
    Outcome :=
  let name := d.name
  let tillerNS := d.tiller_namespace
  let ignoreAlreadyMigrated := d.ignore_already_migrated
  let maxReleaseVersions := d.max_release_versions
  let deleteV2Releases := d.delete_v2_releases
  match m.GetHelmV2ConfigurationInfo with
  | .error err =>
    { diags := diag.FromErr err, d := d, stores := s,
      calls := [Call.GetHelmV2ConfigurationInfo] }
  | .ok kubeConfig =>
    let convertOptions : ConvertOptions :=
      { DeleteRelease := deleteV2Releases,
        MaxReleaseVersions := maxReleaseVersions,
        ReleaseName := name,
        TillerNamespace := tillerNS,
        IgnoreAlreadyMigrated := ignoreAlreadyMigrated }
    match Convert convertOptions kubeConfig s with
    | (some err, s1) =>
      { diags := diag.FromErr err, d := d, stores := s1,
        calls := [Call.GetHelmV2ConfigurationInfo, Call.Convert convertOptions] }
    | (none, s1) =>
      let d1 := { d with migration_complete := true }
      let d2 := if deleteV2Releases then { d1 with cleanup_complete := true } else d1
      let r := resourceMigrationRead m d2 s1
      { r with calls := [Call.GetHelmV2ConfigurationInfo, Call.Convert convertOptions] ++ r.calls }

/-- The function `resourceMigrationUpdate`: it returns nil. -/
def resourceMigrationUpdate (_m : Meta) (d : ResourceData) (s : Stores) : Outcome :=
  { diags := [], d := d, stores := s, calls := [] }

/-- The function `resourceMigrationDelete`: it returns nil. -/
def resourceMigrationDelete (_m : Meta) (d : ResourceData) (s : Stores) : Outcome :=
  { diags := [], d := d, stores := s, calls := [] }

/-! ## Vocabulary of the properties -/

/-- Whether a call is a call to the migration invoker. -/
def Call.isConvert : Call → Bool
  | Call.Convert _ => true
  | _ => false

/-- Whether a call is a lookup in one of the two stores. -/
def Call.isLookup : Call → Bool
  | Call.GetReleaseVersions _ => true
  | Call.getRelease _ => true
  | _ => false

/-- Number of calls to the migration invoker in a list of calls. -/
def convertCalls (cs : List Call) : Nat :=
  cs.countP Call.isConvert

/-- The lookup options that Read builds from the record. -/
def retrieveOptionsOf (d : ResourceData) : RetrieveOptions :=
  { ReleaseName := d.name, TillerNamespace := d.tiller_namespace }

/-- The invoker options that Create builds from the record. -/
def convertOptionsOf (d : ResourceData) : ConvertOptions :=
  { DeleteRelease := d.delete_v2_releases,
    MaxReleaseVersions := d.max_release_versions,
    ReleaseName := d.name,
    TillerNamespace := d.tiller_namespace,
    IgnoreAlreadyMigrated := d.ignore_already_migrated }

/-- The record after the writes that Create makes once the invoker has succeeded:
`migration_complete` is set, and `cleanup_complete` is set when deletion was asked for. -/
def markComplete (d : ResourceData) : ResourceData :=
  { d with migration_complete := true,
           cleanup_complete := d.delete_v2_releases || d.cleanup_complete }

/-- The error that Read reports when it finds the release in neither store. -/
def NotFoundEverywhere : diag.Diagnostics :=
  diag.FromErr (errors.New "couldn't find either release.")

/-- The outcome of a lookup: the release is there. -/
def Found (r : Option GoError) : Prop :=
  r = none

/-- The outcome of a lookup: the store answers that it has no such release. -/
def NotFound (r : Option GoError) : Prop :=
  ∃ e, r = some e ∧ e.noSuchRelease = true

/-- The outcome of a lookup: the lookup failed for another reason than a missing release. -/
def LookupFailed (r : Option GoError) (e : GoError) : Prop :=
  r = some e ∧ e.noSuchRelease = false

/-- The four computed fields of a record that has not been through any operation. -/
def Fresh (d : ResourceData) : Prop :=
  d.v2exists = false ∧ d.v3exists = false ∧
    d.migration_complete = false ∧ d.cleanup_complete = false

/-- The records that the four operations can produce, starting from a record whose
`migration_complete` and `cleanup_complete` are false. Each operation runs with any
provider object, any stores and any invoker; between operations the configured fields
of the record may be given any values. -/
inductive Reachable : ResourceData → Prop where
  | fresh (d : ResourceData) (hm : d.migration_complete = false)
      (hc : d.cleanup_complete = false) : Reachable d
  | create (Convert : Invoker) (m : Meta) (s : Stores) (d : ResourceData) :
      Reachable d → Reachable (resourceMigrationCreate Convert m d s).d
  | read (m : Meta) (s : Stores) (d : ResourceData) :
      Reachable d → Reachable (resourceMigrationRead m d s).d
  | update (m : Meta) (s : Stores) (d : ResourceData) :
      Reachable d → Reachable (resourceMigrationUpdate m d s).d
  | delete (m : Meta) (s : Stores) (d : ResourceData) :
      Reachable d → Reachable (resourceMigrationDelete m d s).d
  | configure (d : ResourceData) (name ns tiller : String) (del ign : Bool) (k : Int) :
      Reachable d →
      Reachable { d with name := name, namespace_ := ns, tiller_namespace := tiller,
                         delete_v2_releases := del, ignore_already_migrated := ign,
                         max_release_versions := k }

/-! ## Concrete inputs -/

/-- A legacy-store configuration. -/
def kubeConfig0 : KubeConfig :=
  { Context := "", File := "/home/user/.kube/config" }

/-- A provider object whose two accessors succeed. -/
def m0 : Meta :=
  { GetHelmV2ConfigurationInfo := Except.ok kubeConfig0,
    GetHelmConfiguration := fun n => Except.ok { key := n } }

/-- A record for release app-a in namespace default, before any operation. -/
def d0 : ResourceData :=
  { name := "app-a", namespace_ := "default", tiller_namespace := "kube-system",
    delete_v2_releases := false, ignore_already_migrated := false,
    max_release_versions := 10,
    v2exists := false, v3exists := false,
    migration_complete := false, cleanup_complete := false, Id := "" }

/-- The error of a lookup that finds no release. -/
def errNoRelease : GoError :=
  { text := "release: not found", noSuchRelease := true }

/-- The error of a lookup that cannot reach its backend. -/
def errUnreachable : GoError :=
  { text := "dial tcp 10.0.0.1:443: connect: connection refused", noSuchRelease := false }

/-- Stores in which every legacy lookup gives `legacy` and every current lookup `current`. -/
def storesOf (legacy current : Option GoError) : Stores :=
  { GetReleaseVersions := fun _ _ => legacy, getRelease := fun _ _ => current }

/-- An invoker that succeeds without changing the stores. -/
def convertNoop : Invoker :=
  fun _ _ s => (none, s)

/-- An invoker that fails with the given error without changing the stores. -/
def convertFails (e : GoError) : Invoker :=
  fun _ _ s => (some e, s)

/-- An invoker that honours its contract: afterwards the current store holds the release,
and the legacy store no longer holds it when deletion was asked for. -/
def convertMigrates : Invoker :=
  fun o _ s =>
    (none,
     { GetReleaseVersions := fun r kc =>
         if r.ReleaseName = o.ReleaseName ∧ o.DeleteRelease = true then some errNoRelease
         else s.GetReleaseVersions r kc,
       getRelease := fun c nm =>
         if nm = o.ReleaseName then none else s.getRelease c nm })

/-- The error of an invoker that finds nothing to convert in the legacy store. -/
def errNoDeployed : GoError :=
  { text := "app-a has no deployed releases", noSuchRelease := true }

/-- Stores that hold the release in the legacy store only. -/
def storesLegacyOnly : Stores :=
  storesOf none (some errNoRelease)

/-- Stores that hold the release in the current store only. -/
def storesCurrentOnly : Stores :=
  storesOf (some errNoRelease) none

/-- Stores that hold the release nowhere. -/
def storesNeither : Stores :=
  storesOf (some errNoRelease) (some errNoRelease)

/-- The current-store configuration that `m0` hands out for the namespace of `d0`. -/
def cfg0 : Configuration :=
  { key := "default" }

/-- The record `d0` with deletion of the legacy versions asked for. -/
def d0Delete : ResourceData :=
  { d0 with delete_v2_releases := true }

/-- The record `d0` after an earlier pass that saw the release in both stores. -/
def d0SeenBoth : ResourceData :=
  { d0 with v2exists := true, v3exists := true, Id := "default/app-a" }

/-! ## Helper lemmas -/

theorem read_stores (m : Meta) (d : ResourceData) (s : Stores) :
    (resourceMigrationRead m d s).stores = s := by
  unfold resourceMigrationRead
  cases m.GetHelmV2ConfigurationInfo <;> simp only []
  cases m.GetHelmConfiguration d.namespace_ <;> simp only []
  split <;> rfl

/-- Read when both configurations load: the four combinations of lookup outcomes. -/
theorem read_cases (m : Meta) (d : ResourceData) (s : Stores) (kc : KubeConfig)
    (cfg : Configuration) (hkc : m.GetHelmV2ConfigurationInfo = Except.ok kc)
    (hcfg : m.GetHelmConfiguration d.namespace_ = Except.ok cfg) :
    resourceMigrationRead m d s =
      (let calls := [Call.GetHelmV2ConfigurationInfo, Call.GetHelmConfiguration d.namespace_,
          Call.GetReleaseVersions (retrieveOptionsOf d), Call.getRelease d.name]
       match s.GetReleaseVersions (retrieveOptionsOf d) kc, s.getRelease cfg d.name with
       | none, none =>
         { diags := [], stores := s, calls := calls,
           d := { d with v2exists := true, v3exists := true,
                         Id := d.namespace_ ++ "/" ++ d.name } }
       | none, some _ =>
         { diags := [], stores := s, calls := calls,
           d := { d with v2exists := true, Id := d.namespace_ ++ "/" ++ d.name } }
       | some _, none =>
         { diags := [], stores := s, calls := calls,
           d := { d with v2exists := false, v3exists := true,
                         Id := d.namespace_ ++ "/" ++ d.name } }
       | some _, some _ =>
         { diags := NotFoundEverywhere, stores := s, calls := calls, d := d }) := by
  rcases h2 : s.GetReleaseVersions (retrieveOptionsOf d) kc with _ | e2 <;>
  rcases h3 : s.getRelease cfg d.name with _ | e3 <;>
  simp [resourceMigrationRead, retrieveOptionsOf, NotFoundEverywhere, hkc, hcfg] <;>
  simp [retrieveOptionsOf] at h2 <;> simp [h2, h3]

/-- Read writes neither `migration_complete` nor `cleanup_complete`. -/
theorem read_progress (m : Meta) (d : ResourceData) (s : Stores) :
    (resourceMigrationRead m d s).d.migration_complete = d.migration_complete ∧
    (resourceMigrationRead m d s).d.cleanup_complete = d.cleanup_complete := by
  rcases hkc : m.GetHelmV2ConfigurationInfo with e | kc
  · simp [resourceMigrationRead, hkc]
  rcases hcfg : m.GetHelmConfiguration d.namespace_ with e | cfg
  · simp [resourceMigrationRead, hkc, hcfg]
  rw [read_cases m d s kc cfg hkc hcfg]
  rcases s.GetReleaseVersions (retrieveOptionsOf d) kc with _ | e2 <;>
  rcases s.getRelease cfg d.name with _ | e3 <;> simp

/-- The identifier after Read: set on success, kept on failure. -/
theorem read_id (m : Meta) (d : ResourceData) (s : Stores) :
    (resourceMigrationRead m d s).d.Id =
      if diag.HasError (resourceMigrationRead m d s).diags = true then d.Id
      else d.namespace_ ++ "/" ++ d.name := by
  rcases hkc : m.GetHelmV2ConfigurationInfo with e | kc
  · simp [resourceMigrationRead, hkc, diag.FromErr, diag.HasError]
  rcases hcfg : m.GetHelmConfiguration d.namespace_ with e | cfg
  · simp [resourceMigrationRead, hkc, hcfg, diag.FromErr, diag.HasError]
  rw [read_cases m d s kc cfg hkc hcfg]
  rcases s.GetReleaseVersions (retrieveOptionsOf d) kc with _ | e2 <;>
  rcases s.getRelease cfg d.name with _ | e3 <;>
  simp [NotFoundEverywhere, diag.FromErr, diag.HasError]

/-- Create when the legacy configuration does not load. -/
theorem create_config_error (Convert : Invoker) (m : Meta) (d : ResourceData) (s : Stores)
    (e : GoError) (hkc : m.GetHelmV2ConfigurationInfo = Except.error e) :
    resourceMigrationCreate Convert m d s =
      { diags := diag.FromErr e, d := d, stores := s,
        calls := [Call.GetHelmV2ConfigurationInfo] } := by
  simp [resourceMigrationCreate, hkc]

/-- Create when the invoker returns an error. -/
theorem create_invoker_error (Convert : Invoker) (m : Meta) (d : ResourceData) (s s1 : Stores)
    (kc : KubeConfig) (e : GoError) (hkc : m.GetHelmV2ConfigurationInfo = Except.ok kc)
    (hconv : Convert (convertOptionsOf d) kc s = (some e, s1)) :
    resourceMigrationCreate Convert m d s =
      { diags := diag.FromErr e, d := d, stores := s1,
        calls := [Call.GetHelmV2ConfigurationInfo, Call.Convert (convertOptionsOf d)] } := by
  simp only [convertOptionsOf] at hconv
  simp [resourceMigrationCreate, convertOptionsOf, hkc, hconv]

/-- Create when the invoker succeeds: the two progress flags are written, then Read runs
on the stores that the invoker left. -/
theorem create_invoker_ok (Convert : Invoker) (m : Meta) (d : ResourceData) (s s1 : Stores)
    (kc : KubeConfig) (hkc : m.GetHelmV2ConfigurationInfo = Except.ok kc)
    (hconv : Convert (convertOptionsOf d) kc s = (none, s1)) :
    (resourceMigrationCreate Convert m d s).diags =
      (resourceMigrationRead m (markComplete d) s1).diags ∧
    (resourceMigrationCreate Convert m d s).d =
      (resourceMigrationRead m (markComplete d) s1).d ∧
    (resourceMigrationCreate Convert m d s).stores =
      (resourceMigrationRead m (markComplete d) s1).stores ∧
    (resourceMigrationCreate Convert m d s).calls =
      [Call.GetHelmV2ConfigurationInfo, Call.Convert (convertOptionsOf d)] ++
        (resourceMigrationRead m (markComplete d) s1).calls := by
  simp only [convertOptionsOf] at hconv
  cases hdel : d.delete_v2_releases <;> simp only [hdel] at hconv <;>
  simp [resourceMigrationCreate, convertOptionsOf, markComplete, hkc, hconv, hdel]

/-- Read after the writes of Create, when both configurations load. -/
theorem read_marked (m : Meta) (d : ResourceData) (s : Stores) (kc : KubeConfig)
    (cfg : Configuration) (hkc : m.GetHelmV2ConfigurationInfo = Except.ok kc)
    (hcfg : m.GetHelmConfiguration d.namespace_ = Except.ok cfg) :
    resourceMigrationRead m (markComplete d) s =
      (let calls := [Call.GetHelmV2ConfigurationInfo, Call.GetHelmConfiguration d.namespace_,
          Call.GetReleaseVersions (retrieveOptionsOf d), Call.getRelease d.name]
       match s.GetReleaseVersions (retrieveOptionsOf d) kc, s.getRelease cfg d.name with
       | none, none =>
         { diags := [], stores := s, calls := calls,
           d := { markComplete d with v2exists := true, v3exists := true,
                                      Id := d.namespace_ ++ "/" ++ d.name } }
       | none, some _ =>
         { diags := [], stores := s, calls := calls,
           d := { markComplete d with v2exists := true,
                                      Id := d.namespace_ ++ "/" ++ d.name } }
       | some _, none =>
         { diags := [], stores := s, calls := calls,
           d := { markComplete d with v2exists := false, v3exists := true,
                                      Id := d.namespace_ ++ "/" ++ d.name } }
       | some _, some _ =>
         { diags := NotFoundEverywhere, stores := s, calls := calls, d := markComplete d }) :=
  read_cases m (markComplete d) s kc cfg hkc hcfg

/-- Create keeps the implication from `cleanup_complete` to `migration_complete`. -/
theorem create_keeps_invariant (Convert : Invoker) (m : Meta) (d : ResourceData) (s : Stores)
    (h : d.cleanup_complete = true → d.migration_complete = true) :
    (resourceMigrationCreate Convert m d s).d.cleanup_complete = true →
      (resourceMigrationCreate Convert m d s).d.migration_complete = true := by
  rcases hkc : m.GetHelmV2ConfigurationInfo with e | kc
  · rw [create_config_error Convert m d s e hkc]
    exact h
  rcases hconv : Convert (convertOptionsOf d) kc s with ⟨_ | e, s1⟩
  · rw [(create_invoker_ok Convert m d s s1 kc hkc hconv).2.1]
    intro _
    rw [(read_progress m (markComplete d) s1).1]
    rfl
  · rw [create_invoker_error Convert m d s s1 kc e hkc hconv]
    exact h

/-! ## The claims -/

/-- Claim C1, evaluated on the code at a lookup that fails for an infrastructure reason:
when the legacy lookup cannot reach its backend and the current store holds the release,
Read succeeds and records the release as absent from the legacy store; the same happens
with the two stores exchanged; and when both lookups cannot reach their backend, Read
reports that the release is in neither store instead of returning the lookup error. -/
theorem C1_lookup_failure_is_read_as_absent :
    LookupFailed ((storesOf (some errUnreachable) none).GetReleaseVersions
      (retrieveOptionsOf d0) kubeConfig0) errUnreachable ∧
    (resourceMigrationRead m0 d0 (storesOf (some errUnreachable) none)).diags = [] ∧
    (resourceMigrationRead m0 d0 (storesOf (some errUnreachable) none)).d.v2exists = false ∧
    (resourceMigrationRead m0 d0 (storesOf none (some errUnreachable))).diags = [] ∧
    (resourceMigrationRead m0 d0
      (storesOf (some errUnreachable) (some errUnreachable))).diags = NotFoundEverywhere ∧
    (resourceMigrationRead m0 d0
      (storesOf (some errUnreachable) (some errUnreachable))).diags ≠
        diag.FromErr errUnreachable := by
  refine ⟨⟨rfl, rfl⟩, ?_, ?_, ?_, ?_, ?_⟩ <;> decide

/-- Claim C2 as stated fails: with the release in the current store only, Create makes a
call to the invoker. -/
theorem C2_counterexample :
    NotFound (storesCurrentOnly.GetReleaseVersions (retrieveOptionsOf d0) kubeConfig0) ∧
    Found (storesCurrentOnly.getRelease cfg0 d0.name) ∧
    convertCalls (resourceMigrationCreate convertNoop m0 d0 storesCurrentOnly).calls ≠ 0 := by
  refine ⟨⟨errNoRelease, rfl, rfl⟩, rfl, ?_⟩
  decide

/-- Claim C2, amended: whenever the legacy-store configuration loads, Create makes exactly
one call to the invoker, whatever the stores hold (it looks nothing up beforehand); and
for a release that is in the current store only, if that call succeeds and leaves the
release in the current store only, Create succeeds with `migration_complete = true` and
`v2exists = false`. -/
theorem C2_create_current_only (m : Meta) (d : ResourceData) (kc : KubeConfig)
    (hkc : m.GetHelmV2ConfigurationInfo = Except.ok kc) :
    (∀ (Convert : Invoker) (s : Stores),
      convertCalls (resourceMigrationCreate Convert m d s).calls = 1) ∧
    (∀ (Convert : Invoker) (s s1 : Stores) (cfg : Configuration),
      m.GetHelmConfiguration d.namespace_ = Except.ok cfg →
      NotFound (s.GetReleaseVersions (retrieveOptionsOf d) kc) →
      Found (s.getRelease cfg d.name) →
      Convert (convertOptionsOf d) kc s = (none, s1) →
      NotFound (s1.GetReleaseVersions (retrieveOptionsOf d) kc) →
      Found (s1.getRelease cfg d.name) →
        (resourceMigrationCreate Convert m d s).diags = [] ∧
        (resourceMigrationCreate Convert m d s).d.migration_complete = true ∧
        (resourceMigrationCreate Convert m d s).d.v2exists = false) := by
  constructor
  · intro Convert s
    rcases hconv : Convert (convertOptionsOf d) kc s with ⟨_ | e, s1⟩
    · rw [(create_invoker_ok Convert m d s s1 kc hkc hconv).2.2.2]
      rcases hcfg : m.GetHelmConfiguration d.namespace_ with e | cfg
      · simp [resourceMigrationRead, markComplete, hkc, hcfg, convertCalls, Call.isConvert]
      · rw [read_marked m d s1 kc cfg hkc hcfg]
        rcases s1.GetReleaseVersions (retrieveOptionsOf d) kc with _ | e2 <;>
        rcases s1.getRelease cfg d.name with _ | e3 <;>
        simp [convertCalls, Call.isConvert]
    · rw [create_invoker_error Convert m d s s1 kc e hkc hconv]
      simp [convertCalls, Call.isConvert]
  · intro Convert s s1 cfg hcfg _ _ hconv hleg1 hcur1
    obtain ⟨e2, h2, _⟩ := hleg1
    obtain ⟨hdiags, hd, _, _⟩ := create_invoker_ok Convert m d s s1 kc hkc hconv
    simp only [Found] at hcur1
    rw [hdiags, hd, read_marked m d s1 kc cfg hkc hcfg, h2, hcur1]
    simp [markComplete]

/-- An instance of the amended claim C2: release app-a in the current store only, with an
invoker that succeeds and changes nothing. -/
theorem C2_create_current_only_witness :
    m0.GetHelmV2ConfigurationInfo = Except.ok kubeConfig0 ∧
    convertCalls (resourceMigrationCreate convertNoop m0 d0 storesCurrentOnly).calls = 1 ∧
    (resourceMigrationCreate convertNoop m0 d0 storesCurrentOnly).diags = [] ∧
    (resourceMigrationCreate convertNoop m0 d0 storesCurrentOnly).d.migration_complete = true ∧
    (resourceMigrationCreate convertNoop m0 d0 storesCurrentOnly).d.v2exists = false :=
  ⟨rfl, (C2_create_current_only m0 d0 kubeConfig0 rfl).1 convertNoop storesCurrentOnly,
    (C2_create_current_only m0 d0 kubeConfig0 rfl).2 convertNoop storesCurrentOnly
      storesCurrentOnly cfg0 rfl ⟨errNoRelease, rfl, rfl⟩ rfl rfl ⟨errNoRelease, rfl, rfl⟩ rfl⟩

/-- Claim C3, evaluated on the code at a record that an earlier pass left with
`v3exists = true`: when the legacy lookup finds the release and the current lookup
reports that there is no such release, Read succeeds and `v3exists` is still true, while
from a fresh record the same lookups leave it false: the field is not determined by the
lookups. -/
theorem C3_read_keeps_stale_v3exists :
    Found (storesLegacyOnly.GetReleaseVersions (retrieveOptionsOf d0SeenBoth) kubeConfig0) ∧
    NotFound (storesLegacyOnly.getRelease cfg0 d0SeenBoth.name) ∧
    (resourceMigrationRead m0 d0SeenBoth storesLegacyOnly).diags = [] ∧
    (resourceMigrationRead m0 d0SeenBoth storesLegacyOnly).d.v2exists = true ∧
    (resourceMigrationRead m0 d0SeenBoth storesLegacyOnly).d.v3exists = true ∧
    (resourceMigrationRead m0 d0 storesLegacyOnly).d.v3exists = false := by
  refine ⟨rfl, ⟨errNoRelease, rfl, rfl⟩, ?_, ?_, ?_, ?_⟩ <;> decide

/-- Claim C4 as stated fails: with the release in neither store and an invoker that
returns an error, Create fails with the error of the invoker, which is not the error that
says the release is in neither store. -/
theorem C4_counterexample :
    NotFound (storesNeither.GetReleaseVersions (retrieveOptionsOf d0) kubeConfig0) ∧
    NotFound (storesNeither.getRelease cfg0 d0.name) ∧
    (resourceMigrationCreate (convertFails errNoDeployed) m0 d0 storesNeither).diags =
      diag.FromErr errNoDeployed ∧
    (resourceMigrationCreate (convertFails errNoDeployed) m0 d0 storesNeither).diags ≠
      NotFoundEverywhere := by
  refine ⟨⟨errNoRelease, rfl, rfl⟩, ⟨errNoRelease, rfl, rfl⟩, ?_, ?_⟩ <;> decide

/-- Claim C4, amended: for a release that is in neither store, with both store
configurations loading, and for every prior record and option setting, Read fails with
the error that says the release is in neither store. Create calls the invoker first:
when the invoker returns an error, Create fails with that error; when the invoker succeeds
and the release is still in neither store, Create fails with the error that says the
release is in neither store. -/
theorem C4_absent_everywhere (m : Meta) (d : ResourceData) (s : Stores) (kc : KubeConfig)
    (cfg : Configuration) (hkc : m.GetHelmV2ConfigurationInfo = Except.ok kc)
    (hcfg : m.GetHelmConfiguration d.namespace_ = Except.ok cfg)
    (hleg : NotFound (s.GetReleaseVersions (retrieveOptionsOf d) kc))
    (hcur : NotFound (s.getRelease cfg d.name)) :
    (resourceMigrationRead m d s).diags = NotFoundEverywhere ∧
    (∀ (Convert : Invoker) (e : GoError) (s1 : Stores),
      Convert (convertOptionsOf d) kc s = (some e, s1) →
        (resourceMigrationCreate Convert m d s).diags = diag.FromErr e) ∧
    (∀ (Convert : Invoker) (s1 : Stores),
      Convert (convertOptionsOf d) kc s = (none, s1) →
      NotFound (s1.GetReleaseVersions (retrieveOptionsOf d) kc) →
      NotFound (s1.getRelease cfg d.name) →
        (resourceMigrationCreate Convert m d s).diags = NotFoundEverywhere) := by
  refine ⟨?_, ?_, ?_⟩
  · obtain ⟨e2, h2, _⟩ := hleg
    obtain ⟨e3, h3, _⟩ := hcur
    rw [read_cases m d s kc cfg hkc hcfg, h2, h3]
  · intro Convert e s1 hconv
    rw [create_invoker_error Convert m d s s1 kc e hkc hconv]
  · intro Convert s1 hconv hleg1 hcur1
    obtain ⟨e2, h2, _⟩ := hleg1
    obtain ⟨e3, h3, _⟩ := hcur1
    rw [(create_invoker_ok Convert m d s s1 kc hkc hconv).1,
      read_marked m d s1 kc cfg hkc hcfg, h2, h3]

/-- An instance of the amended claim C4: release app-a in neither store, with an invoker
that fails and with one that succeeds and changes nothing. -/
theorem C4_absent_everywhere_witness :
    NotFound (storesNeither.GetReleaseVersions (retrieveOptionsOf d0) kubeConfig0) ∧
    NotFound (storesNeither.getRelease cfg0 d0.name) ∧
    (resourceMigrationRead m0 d0 storesNeither).diags = NotFoundEverywhere ∧
    (resourceMigrationCreate (convertFails errUnreachable) m0 d0 storesNeither).diags =
      diag.FromErr errUnreachable ∧
    (resourceMigrationCreate convertNoop m0 d0 storesNeither).diags = NotFoundEverywhere :=
  ⟨⟨errNoRelease, rfl, rfl⟩, ⟨errNoRelease, rfl, rfl⟩,
    (C4_absent_everywhere m0 d0 storesNeither kubeConfig0 cfg0 rfl rfl
      ⟨errNoRelease, rfl, rfl⟩ ⟨errNoRelease, rfl, rfl⟩).1,
    (C4_absent_everywhere m0 d0 storesNeither kubeConfig0 cfg0 rfl rfl
      ⟨errNoRelease, rfl, rfl⟩ ⟨errNoRelease, rfl, rfl⟩).2.1
        (convertFails errUnreachable) errUnreachable storesNeither rfl,
    (C4_absent_everywhere m0 d0 storesNeither kubeConfig0 cfg0 rfl rfl
      ⟨errNoRelease, rfl, rfl⟩ ⟨errNoRelease, rfl, rfl⟩).2.2
        convertNoop storesNeither rfl ⟨errNoRelease, rfl, rfl⟩ ⟨errNoRelease, rfl, rfl⟩⟩

/-- Claim C5: for a release that is in the legacy store only, from a fresh record, with
both store configurations loading and an invoker that succeeds and honours its contract
(afterwards the current store holds the release, and the legacy store holds it exactly
when `delete_v2_releases` is false), Create calls the invoker exactly once, succeeds, and
ends with `v2exists = not delete_v2_releases`, `v3exists = true`,
`migration_complete = true` and `cleanup_complete = delete_v2_releases`. -/
theorem C5_create_legacy_only (Convert : Invoker) (m : Meta) (d : ResourceData)
    (s s1 : Stores) (kc : KubeConfig) (cfg : Configuration)
    (hkc : m.GetHelmV2ConfigurationInfo = Except.ok kc)
    (hcfg : m.GetHelmConfiguration d.namespace_ = Except.ok cfg)
    (hfresh : Fresh d)
    (hleg : Found (s.GetReleaseVersions (retrieveOptionsOf d) kc))
    (hcur : NotFound (s.getRelease cfg d.name))
    (hconv : Convert (convertOptionsOf d) kc s = (none, s1))
    (hcur1 : Found (s1.getRelease cfg d.name))
    (hleg1 : Found (s1.GetReleaseVersions (retrieveOptionsOf d) kc) ↔
      d.delete_v2_releases = false) :
    convertCalls (resourceMigrationCreate Convert m d s).calls = 1 ∧
    (resourceMigrationCreate Convert m d s).diags = [] ∧
    (resourceMigrationCreate Convert m d s).d.v2exists = !d.delete_v2_releases ∧
    (resourceMigrationCreate Convert m d s).d.v3exists = true ∧
    (resourceMigrationCreate Convert m d s).d.migration_complete = true ∧
    (resourceMigrationCreate Convert m d s).d.cleanup_complete = d.delete_v2_releases := by
  obtain ⟨hdiags, hd, _, hcalls⟩ := create_invoker_ok Convert m d s s1 kc hkc hconv
  obtain ⟨_, _, _, hcc⟩ := hfresh
  simp only [Found] at hcur1 hleg1
  rw [hdiags, hd, hcalls, read_marked m d s1 kc cfg hkc hcfg, hcur1]
  rcases h2 : s1.GetReleaseVersions (retrieveOptionsOf d) kc with _ | e2
  · have hdel : d.delete_v2_releases = false := hleg1.1 h2
    simp [convertCalls, Call.isConvert, markComplete, hdel, hcc]
  · have hdel : d.delete_v2_releases = true := by
      cases hb : d.delete_v2_releases
      · rw [hleg1.2 hb] at h2
        cases h2
      · rfl
    simp [convertCalls, Call.isConvert, markComplete, hdel]

/-- Two instances of claim C5, the two scenarios for release app-a: legacy
versions retained, and legacy versions deleted. -/
theorem C5_create_legacy_only_witness :
    (Fresh d0 ∧
      convertCalls (resourceMigrationCreate convertMigrates m0 d0 storesLegacyOnly).calls = 1 ∧
      (resourceMigrationCreate convertMigrates m0 d0 storesLegacyOnly).diags = [] ∧
      (resourceMigrationCreate convertMigrates m0 d0 storesLegacyOnly).d.v2exists = true ∧
      (resourceMigrationCreate convertMigrates m0 d0 storesLegacyOnly).d.v3exists = true ∧
      (resourceMigrationCreate convertMigrates m0 d0 storesLegacyOnly).d.migration_complete
        = true ∧
      (resourceMigrationCreate convertMigrates m0 d0 storesLegacyOnly).d.cleanup_complete
        = false) ∧
    (Fresh d0Delete ∧
      convertCalls
        (resourceMigrationCreate convertMigrates m0 d0Delete storesLegacyOnly).calls = 1 ∧
      (resourceMigrationCreate convertMigrates m0 d0Delete storesLegacyOnly).diags = [] ∧
      (resourceMigrationCreate convertMigrates m0 d0Delete storesLegacyOnly).d.v2exists
        = false ∧
      (resourceMigrationCreate convertMigrates m0 d0Delete storesLegacyOnly).d.v3exists
        = true ∧
      (resourceMigrationCreate convertMigrates m0 d0Delete
        storesLegacyOnly).d.migration_complete = true ∧
      (resourceMigrationCreate convertMigrates m0 d0Delete
        storesLegacyOnly).d.cleanup_complete = true) :=
  ⟨⟨⟨rfl, rfl, rfl, rfl⟩,
     C5_create_legacy_only convertMigrates m0 d0 storesLegacyOnly
      (convertMigrates (convertOptionsOf d0) kubeConfig0 storesLegacyOnly).2 kubeConfig0 cfg0
      rfl rfl ⟨rfl, rfl, rfl, rfl⟩ rfl ⟨errNoRelease, rfl, rfl⟩ rfl rfl
      (by simp [Found, convertMigrates, convertOptionsOf, retrieveOptionsOf, storesLegacyOnly,
            storesOf, d0])⟩,
   ⟨⟨rfl, rfl, rfl, rfl⟩,
     C5_create_legacy_only convertMigrates m0 d0Delete storesLegacyOnly
      (convertMigrates (convertOptionsOf d0Delete) kubeConfig0 storesLegacyOnly).2 kubeConfig0
      cfg0 rfl rfl ⟨rfl, rfl, rfl, rfl⟩ rfl ⟨errNoRelease, rfl, rfl⟩ rfl rfl
      (by simp [Found, convertMigrates, convertOptionsOf, retrieveOptionsOf, storesLegacyOnly,
            storesOf, d0Delete, d0])⟩⟩

/-- Claim C6: when the invoker returns an error, then for every prior record and option
setting Create returns the diagnostic of that error and writes nothing: the record,
with its four computed fields and its identifier, is exactly as before the call; and no
Read pass runs: the only calls made are the load of the legacy configuration and the
call to the invoker, so there is no store lookup. -/
theorem C6_invoker_failure (Convert : Invoker) (m : Meta) (d : ResourceData) (s : Stores)
    (kc : KubeConfig) (e : GoError)
    (hkc : m.GetHelmV2ConfigurationInfo = Except.ok kc)
    (hconv : (Convert (convertOptionsOf d) kc s).1 = some e) :
    (resourceMigrationCreate Convert m d s).diags = diag.FromErr e ∧
    (resourceMigrationCreate Convert m d s).d = d ∧
    (resourceMigrationCreate Convert m d s).calls =
      [Call.GetHelmV2ConfigurationInfo, Call.Convert (convertOptionsOf d)] ∧
    (resourceMigrationCreate Convert m d s).calls.any Call.isLookup = false := by
  rcases hc : Convert (convertOptionsOf d) kc s with ⟨r, s1⟩
  rw [hc] at hconv
  simp only at hconv
  subst hconv
  rw [create_invoker_error Convert m d s s1 kc e hkc hc]
  simp [Call.isLookup]

/-- An instance of claim C6: a record that an earlier pass filled in, and an
invoker that cannot reach its backend. -/
theorem C6_invoker_failure_witness :
    (convertFails errUnreachable (convertOptionsOf d0SeenBoth) kubeConfig0
      storesLegacyOnly).1 = some errUnreachable ∧
    (resourceMigrationCreate (convertFails errUnreachable) m0 d0SeenBoth
      storesLegacyOnly).diags = diag.FromErr errUnreachable ∧
    (resourceMigrationCreate (convertFails errUnreachable) m0 d0SeenBoth
      storesLegacyOnly).d = d0SeenBoth ∧
    (resourceMigrationCreate (convertFails errUnreachable) m0 d0SeenBoth
      storesLegacyOnly).calls =
        [Call.GetHelmV2ConfigurationInfo, Call.Convert (convertOptionsOf d0SeenBoth)] ∧
    (resourceMigrationCreate (convertFails errUnreachable) m0 d0SeenBoth
      storesLegacyOnly).calls.any Call.isLookup = false :=
  ⟨rfl, C6_invoker_failure (convertFails errUnreachable) m0 d0SeenBoth storesLegacyOnly
    kubeConfig0 errUnreachable rfl rfl⟩

/-- Claim C7: in every record reachable from one with `migration_complete = false` and
`cleanup_complete = false` by any sequence of Create, Read, Update and Delete, under any
outcomes of the configuration accessors, of the store lookups and of the invoker, and
with any changes to the configured fields in between, `cleanup_complete = true` implies
`migration_complete = true`. -/
theorem C7_cleanup_implies_migration (d : ResourceData) (hd : Reachable d)
    (hc : d.cleanup_complete = true) : d.migration_complete = true := by
  induction hd with
  | fresh d hm hc0 =>
    rw [hc0] at hc
    cases hc
  | create Convert m s d _ ih => exact create_keeps_invariant Convert m d s ih hc
  | read m s d _ ih =>
    rw [(read_progress m d s).1]
    rw [(read_progress m d s).2] at hc
    exact ih hc
  | update m s d _ ih => exact ih hc
  | delete m s d _ ih => exact ih hc
  | configure d name ns tiller del ign k _ ih => exact ih hc

/-- An instance of claim C7: the record after a Create that migrated
release app-a with deletion of the legacy versions, followed by a Read, an Update and a
Delete. -/
theorem C7_cleanup_implies_migration_witness :
    (resourceMigrationDelete m0 (resourceMigrationUpdate m0 (resourceMigrationRead m0
      (resourceMigrationCreate convertMigrates m0 d0Delete storesLegacyOnly).d
      storesCurrentOnly).d storesCurrentOnly).d storesCurrentOnly).d.cleanup_complete = true ∧
    (resourceMigrationDelete m0 (resourceMigrationUpdate m0 (resourceMigrationRead m0
      (resourceMigrationCreate convertMigrates m0 d0Delete storesLegacyOnly).d
      storesCurrentOnly).d storesCurrentOnly).d storesCurrentOnly).d.migration_complete = true :=
  ⟨by decide,
   C7_cleanup_implies_migration _
    (Reachable.delete m0 storesCurrentOnly _
      (Reachable.update m0 storesCurrentOnly _
        (Reachable.read m0 storesCurrentOnly _
          (Reachable.create convertMigrates m0 storesLegacyOnly d0Delete
            (Reachable.fresh d0Delete rfl rfl)))))
    (by decide)⟩

/-- Claim C8: Read is idempotent. For every prior record, every provider object and every
stores, a second Read on the record and stores left by a first Read returns the same
diagnostics as the first and leaves the same record (all fields, the identifier
included), the same stores and makes the same calls; the first Read leaves the stores as
they were. -/
theorem C8_read_idempotent (m : Meta) (d : ResourceData) (s : Stores) :
    (resourceMigrationRead m d s).stores = s ∧
    (resourceMigrationRead m (resourceMigrationRead m d s).d
        (resourceMigrationRead m d s).stores).diags = (resourceMigrationRead m d s).diags ∧
    (resourceMigrationRead m (resourceMigrationRead m d s).d
        (resourceMigrationRead m d s).stores).d = (resourceMigrationRead m d s).d ∧
    (resourceMigrationRead m (resourceMigrationRead m d s).d
        (resourceMigrationRead m d s).stores).calls = (resourceMigrationRead m d s).calls := by
  refine ⟨read_stores m d s, ?_⟩
  rw [read_stores m d s]
  rcases hkc : m.GetHelmV2ConfigurationInfo with e | kc
  · simp [resourceMigrationRead, hkc]
  rcases hcfg : m.GetHelmConfiguration d.namespace_ with e | cfg
  · simp [resourceMigrationRead, hkc, hcfg]
  rw [read_cases m d s kc cfg hkc hcfg]
  rcases h2 : s.GetReleaseVersions (retrieveOptionsOf d) kc with _ | e2 <;>
  rcases h3 : s.getRelease cfg d.name with _ | e3 <;>
  simp only [] <;>
  (rw [read_cases m _ s kc cfg hkc (by simpa using hcfg)]
   simp [retrieveOptionsOf] at h2 ⊢
   simp [h2, h3])

/-- Claim C9: Update and Delete are inert. For every record, option values, provider
object and stores, each returns no diagnostics (so no error), makes no call at all (no
invoker call, no lookup, no deletion), and leaves the stores and the record unchanged. -/
theorem C9_update_delete_inert (m : Meta) (d : ResourceData) (s : Stores) :
    ((resourceMigrationUpdate m d s).diags = [] ∧
      diag.HasError (resourceMigrationUpdate m d s).diags = false ∧
      (resourceMigrationUpdate m d s).calls = [] ∧
      (resourceMigrationUpdate m d s).stores = s ∧
      (resourceMigrationUpdate m d s).d = d) ∧
    ((resourceMigrationDelete m d s).diags = [] ∧
      diag.HasError (resourceMigrationDelete m d s).diags = false ∧
      (resourceMigrationDelete m d s).calls = [] ∧
      (resourceMigrationDelete m d s).stores = s ∧
      (resourceMigrationDelete m d s).d = d) :=
  ⟨⟨rfl, rfl, rfl, rfl, rfl⟩, ⟨rfl, rfl, rfl, rfl, rfl⟩⟩

/-- Claim C10: after Read, and after Create, the resource identifier is
`namespace ++ "/" ++ name` (with the field `namespace`, not `tiller_namespace`) when the
operation succeeded, and is what it was before when the operation failed. -/
theorem C10_identifier (Convert : Invoker) (m : Meta) (d : ResourceData) (s : Stores) :
    (resourceMigrationRead m d s).d.Id =
      (if diag.HasError (resourceMigrationRead m d s).diags = true then d.Id
       else d.namespace_ ++ "/" ++ d.name) ∧
    (resourceMigrationCreate Convert m d s).d.Id =
      (if diag.HasError (resourceMigrationCreate Convert m d s).diags = true then d.Id
       else d.namespace_ ++ "/" ++ d.name) := by
  refine ⟨read_id m d s, ?_⟩
  rcases hkc : m.GetHelmV2ConfigurationInfo with e | kc
  · rw [create_config_error Convert m d s e hkc]
    simp [diag.FromErr, diag.HasError]
  rcases hconv : Convert (convertOptionsOf d) kc s with ⟨_ | e, s1⟩
  · obtain ⟨hdiags, hd, _, _⟩ := create_invoker_ok Convert m d s s1 kc hkc hconv
    rw [hdiags, hd, read_id m (markComplete d) s1]
    rfl
  · rw [create_invoker_error Convert m d s s1 kc e hkc hconv]
    simp [diag.FromErr, diag.HasError]

end helm
